import Mathlib

/-!
# Verification of the SupplyChain-Neo4jGraphRag pipeline

A shallow embedding of the three Python modules of the repository:

* `app.py` — the Streamlit chat application: `get_relevant_context`
  (the Neo4j similarity query plus context rendering),
  `generate_gemini_response`, and the chat-input handler.
* `load_data.py` — the ingestion pipeline: node upserts (`MERGE ... SET`),
  route and relationship merges, and `load_all_data`.
* `test_connection.py` — the connection smoke tests.

The Neo4j store is modelled as a `Graph` value: lists of typed nodes and
edges.  Cypher `MERGE {id} SET ...` becomes `upsertBy` (replace the
matching element, or append), `MATCH ... MERGE` on relationships becomes a
conditional insert.  Embedding vectors are lists of rationals; the Cypher
`reduce` dot product is a fold over the zipped lists (the two vectors have
the declared dimensionality in every reachable store, which the relevant
theorems take as a hypothesis).  Fallible external calls (driver, session,
embedding model, generation API) are passed in as `Except`/`Option`
parameters, mirroring the `try/except` structure of the Python code.
-/

namespace SupplyChainRag

/-! ## Data model: graph nodes and edges -/

/-- A `Product` node: scalar attributes set by `load_products`, plus the
description embedding (null when never set). -/
structure ProductNode where
  id : String
  name : String
  description : String
  price : ℚ
  category : String
  description_embedding : Option (List ℚ)
deriving DecidableEq, Repr

/-- A `Supplier` node as written by `load_suppliers`. -/
structure SupplierNode where
  id : String
  name : String
  location : String
  specialization : String
deriving DecidableEq, Repr

/-- A `Warehouse` node as written by `load_warehouses`. -/
structure WarehouseNode where
  id : String
  name : String
  location : String
  capacity : ℚ
deriving DecidableEq, Repr

/-- A `CONNECTED_TO` edge (warehouse → warehouse) with its `SET` attributes.
`src` and `dst` stand for the fields `from` and `to` of the record. -/
structure RouteEdge where
  src : String
  dst : String
  distance : ℚ
  duration : ℚ
deriving DecidableEq, Repr

/-- The graph store.  `supplies` holds `(supplier id, product id)` pairs,
`storedAt` holds `(product id, warehouse id)` pairs; both relationship
types carry no attributes, so a plain pair list suffices.  `indexCreated`
records whether the vector index exists. -/
@[ext]
structure Graph where
  products : List ProductNode
  suppliers : List SupplierNode
  warehouses : List WarehouseNode
  supplies : List (String × String)
  storedAt : List (String × String)
  connectedTo : List RouteEdge
  indexCreated : Bool
deriving DecidableEq, Repr

/-! ## Retrieval query (`app.py`, `get_relevant_context`)

The Cypher query filters products with a non-null `description_embedding`,
scores each by the `reduce` dot product against the question embedding,
orders descending, limits to 3, and left-joins suppliers and warehouses
into `collect(DISTINCT ...)` lists. -/

/-- The Cypher `reduce(s = 0, i in range(0, size(a)-1) | s + a[i]*b[i])`
dot product.  Modelled on zipped lists; identical to the value in the query
whenever the two vectors have equal length (the declared dimensionality). -/
def dotProduct (a b : List ℚ) : ℚ :=
  (a.zip b).foldl (fun s p => s + p.1 * p.2) 0

/-- Products whose `description_embedding IS NOT NULL`, paired with their
similarity score. -/
def scoredCandidates (g : Graph) (q : List ℚ) : List (ProductNode × ℚ) :=
  (g.products.filter (fun p => p.description_embedding.isSome)).map
    (fun p => (p, dotProduct (p.description_embedding.getD []) q))

/-- Insert one scored row into a descending-sorted list (`ORDER BY
similarity DESC`). -/
def insertDesc {α : Type} (x : α × ℚ) : List (α × ℚ) → List (α × ℚ)
  | [] => [x]
  | y :: ys => if y.2 < x.2 then x :: y :: ys else y :: insertDesc x ys

/-- Sort scored rows by descending similarity. -/
def sortDesc {α : Type} : List (α × ℚ) → List (α × ℚ)
  | [] => []
  | x :: xs => insertDesc x (sortDesc xs)

/-- The `ORDER BY similarity DESC LIMIT 3` step. -/
def rankedProducts (g : Graph) (q : List ℚ) : List (ProductNode × ℚ) :=
  (sortDesc (scoredCandidates g q)).take 3

/-- The supplier collect expression of the query, taken after the
optional SUPPLIES match: the matched supplier names, or a single null
entry when nothing matches, deduplicated by DISTINCT. -/
def suppliersCollect (g : Graph) (pid : String) : List (Option String) :=
  let matched := (g.suppliers.filter
      (fun s => decide ((s.id, pid) ∈ g.supplies))).map (fun s => some s.name)
  (if matched.isEmpty then [none] else matched).dedup

/-- The warehouse collect expression of the query, taken after the
optional STORED_AT match: pairs of name and location, or a single
all-null entry when nothing matches, deduplicated by DISTINCT. -/
def warehousesCollect (g : Graph) (pid : String) :
    List (Option String × Option String) :=
  let matched := (g.warehouses.filter
      (fun w => decide ((pid, w.id) ∈ g.storedAt))).map
      (fun w => (some w.name, some w.location))
  (if matched.isEmpty then [(none, none)] else matched).dedup

/-- One record of the `RETURN` clause. -/
structure Row where
  product_name : String
  product_description : String
  suppliers : List (Option String)
  warehouses : List (Option String × Option String)
deriving DecidableEq, Repr

/-- Build the returned record for one ranked product. -/
def rowOf (g : Graph) (p : ProductNode) : Row :=
  { product_name := p.name
    product_description := p.description
    suppliers := suppliersCollect g p.id
    warehouses := warehousesCollect g p.id }

/-- The full result set of the similarity query, in ranked order. -/
def queryRows (g : Graph) (q : List ℚ) : List Row :=
  (rankedProducts g q).map (fun pr => rowOf g pr.1)

/-! ## Context rendering (`app.py` lines 73–88) -/

/-- Python truthiness of a nullable string: `None` and `""` are falsy. -/
def truthy : Option String → Bool
  | none => false
  | some s => !s.isEmpty

/-- Python f-string interpolation of a nullable string (`None` prints as
`"None"`). -/
def pyStr : Option String → String
  | none => "None"
  | some s => s

/-- One iteration of the rendering loop: append the product line, the
description line, one `Supplied by:` line per truthy supplier name, one
`Stored at:` line per truthy warehouse name, then the separator. -/
def renderStep (ctx : List String) (r : Row) : List String :=
  let ctx := ctx ++ ["Product: " ++ r.product_name]
  let ctx := ctx ++ ["Description: " ++ r.product_description]
  let ctx := if r.suppliers.isEmpty then ctx else
    r.suppliers.foldl (fun c n =>
      if truthy n then c ++ ["Supplied by: " ++ pyStr n] else c) ctx
  let ctx := if r.warehouses.isEmpty then ctx else
    r.warehouses.foldl (fun c w =>
      if truthy w.1 then
        c ++ ["Stored at: " ++ pyStr w.1 ++ " in " ++ pyStr w.2]
      else c) ctx
  ctx ++ ["---"]

/-- The rendering loop over all returned records, starting from the empty
`context` list. -/
def renderFold (rows : List Row) : List String :=
  rows.foldl renderStep []

/-- The declarative per-product block the rendering is compared against:
the product line, the description line, one `Supplied by:` line per
supplier entry whose name is truthy (non-null *and* non-empty), one
`Stored at:` line per warehouse entry whose name is truthy, then the
separator. -/
def renderBlockAmended (r : Row) : List String :=
  ["Product: " ++ r.product_name, "Description: " ++ r.product_description]
    ++ (r.suppliers.filter truthy).map (fun n => "Supplied by: " ++ pyStr n)
    ++ (r.warehouses.filter (fun w => truthy w.1)).map
        (fun w => "Stored at: " ++ pyStr w.1 ++ " in " ++ pyStr w.2)
    ++ ["---"]

/-- Model of `get_relevant_context`: the whole retrieval step.  The store and the
embedding model are passed as outcomes: `store` is the result of the
driver/session/query interaction (an `Except` carries any store-side
failure), `model` is `none` when the `SentenceTransformer` failed to load
at process start (the later attribute access then raises and is caught by
the same handler).  Every failure path returns the fixed error sentinel. -/
def get_relevant_context (store : Except Unit Graph)
    (model : Option (String → List ℚ)) (question : String) : String :=
  match store with
  | Except.error _ => "Error retrieving context."
  | Except.ok g =>
    match model with
    | none => "Error retrieving context."
    | some enc =>
      let question_embedding := enc question
      let context := renderFold (queryRows g question_embedding)
      if context.isEmpty then "No relevant context found."
      else String.intercalate "\n" context

/-! ## Ingestion pipeline (`load_data.py`)

Fixture records are flat objects (§ fixture file format); each loader
function folds its records into the graph.  `MERGE {id} ... SET ...`
is modelled by `upsertBy`: replace every node carrying the merge key,
otherwise append a fresh node. -/

/-- A `products.json` record. -/
structure ProductRecord where
  id : String
  name : String
  description : String
  price : ℚ
  category : String
deriving DecidableEq, Repr

/-- A `suppliers.json` record. -/
structure SupplierRecord where
  id : String
  name : String
  location : String
  specialization : String
deriving DecidableEq, Repr

/-- A `warehouses.json` record. -/
structure WarehouseRecord where
  id : String
  name : String
  location : String
  capacity : ℚ
deriving DecidableEq, Repr

/-- A `routes.json` record (`from`/`to` as `src`/`dst`). -/
structure RouteRecord where
  src : String
  dst : String
  distance : ℚ
  duration : ℚ
deriving DecidableEq, Repr

/-- A `relationships.json` record; one record drives both the SUPPLIES
and the STORED_AT merge. -/
structure RelRecord where
  supplier_id : String
  product_id : String
  warehouse_id : String
deriving DecidableEq, Repr

/-- The five fixture files. -/
structure FixtureData where
  products : List ProductRecord
  suppliers : List SupplierRecord
  warehouses : List WarehouseRecord
  routes : List RouteRecord
  relationships : List RelRecord
deriving DecidableEq, Repr

/-- Cypher `MERGE` by key then `SET` every attribute: if an element with the key
exists it is overwritten wholesale, otherwise the new element is appended. -/
def upsertBy {α κ : Type} [DecidableEq κ] (key : α → κ) (l : List α)
    (a : α) : List α :=
  if l.any (fun b => decide (key b = key a)) then
    l.map (fun b => if key b = key a then a else b)
  else l ++ [a]

/-- The node written by one `load_products` iteration: all scalar fields
plus the freshly computed description embedding. -/
def productNodeOf (enc : String → List ℚ) (r : ProductRecord) : ProductNode :=
  { id := r.id, name := r.name, description := r.description,
    price := r.price, category := r.category,
    description_embedding := some (enc r.description) }

/-- Model of `load_products`: ensure the vector index, then merge each product
node with its computed embedding. -/
def load_products (enc : String → List ℚ) (g : Graph)
    (rs : List ProductRecord) : Graph :=
  { g with indexCreated := true,
           products := rs.foldl
             (fun l r => upsertBy ProductNode.id l (productNodeOf enc r))
             g.products }

/-- The node written by one `load_suppliers` iteration. -/
def supplierNodeOf (r : SupplierRecord) : SupplierNode :=
  { id := r.id, name := r.name, location := r.location,
    specialization := r.specialization }

/-- Model of `load_suppliers`: merge each supplier node by id. -/
def load_suppliers (g : Graph) (rs : List SupplierRecord) : Graph :=
  { g with suppliers := rs.foldl
             (fun l r => upsertBy SupplierNode.id l (supplierNodeOf r))
             g.suppliers }

/-- The node written by one `load_warehouses` iteration. -/
def warehouseNodeOf (r : WarehouseRecord) : WarehouseNode :=
  { id := r.id, name := r.name, location := r.location,
    capacity := r.capacity }

/-- Model of `load_warehouses`: merge each warehouse node by id. -/
def load_warehouses (g : Graph) (rs : List WarehouseRecord) : Graph :=
  { g with warehouses := rs.foldl
             (fun l r => upsertBy WarehouseNode.id l (warehouseNodeOf r))
             g.warehouses }

/-- One `load_transportation_routes` iteration: `MATCH` both warehouse
endpoints, and only when both exist `MERGE` the `CONNECTED_TO` edge (keyed
by the endpoint pair) and `SET` its attributes.  A failed match yields
zero rows, so nothing is created and nothing raises. -/
def mergeRoute (ws : List WarehouseNode) (es : List RouteEdge)
    (r : RouteRecord) : List RouteEdge :=
  if ws.any (fun w => decide (w.id = r.src)) &&
     ws.any (fun w => decide (w.id = r.dst)) then
    upsertBy (fun e => (e.src, e.dst)) es
      { src := r.src, dst := r.dst, distance := r.distance,
        duration := r.duration }
  else es

/-- Model of `load_transportation_routes`: fold the route records. -/
def load_transportation_routes (g : Graph) (rs : List RouteRecord) : Graph :=
  { g with connectedTo := rs.foldl (mergeRoute g.warehouses) g.connectedTo }

/-- Cypher `MERGE` of an attribute-less relationship: a no-op when the edge already
exists, otherwise append it. -/
def insertEdge (es : List (String × String)) (e : String × String) :
    List (String × String) :=
  if e ∈ es then es else es ++ [e]

/-- The SUPPLIES half of one `create_relationships` iteration: match the
supplier and the product, and merge the edge only when both exist. -/
def suppliesMerge (ss : List SupplierNode) (ps : List ProductNode)
    (es : List (String × String)) (r : RelRecord) : List (String × String) :=
  if ss.any (fun s => decide (s.id = r.supplier_id)) &&
     ps.any (fun p => decide (p.id = r.product_id)) then
    insertEdge es (r.supplier_id, r.product_id)
  else es

/-- The STORED_AT half of one `create_relationships` iteration. -/
def storedAtMerge (ps : List ProductNode) (ws : List WarehouseNode)
    (es : List (String × String)) (r : RelRecord) : List (String × String) :=
  if ps.any (fun p => decide (p.id = r.product_id)) &&
     ws.any (fun w => decide (w.id = r.warehouse_id)) then
    insertEdge es (r.product_id, r.warehouse_id)
  else es

/-- One `create_relationships` iteration: the SUPPLIES merge followed by
the STORED_AT merge, issued as two independent queries. -/
def relStep (g : Graph) (r : RelRecord) : Graph :=
  let g1 := { g with supplies := suppliesMerge g.suppliers g.products g.supplies r }
  { g1 with storedAt := storedAtMerge g1.products g1.warehouses g1.storedAt r }

/-- Model of `create_relationships`: fold the relationship records. -/
def create_relationships (g : Graph) (rs : List RelRecord) : Graph :=
  rs.foldl relStep g

/-- Model of `load_all_data`: the five phases in source order. -/
def load_all_data (enc : String → List ℚ) (data : FixtureData)
    (g : Graph) : Graph :=
  create_relationships
    (load_transportation_routes
      (load_warehouses
        (load_suppliers
          (load_products enc g data.products)
          data.suppliers)
        data.warehouses)
      data.routes)
    data.relationships

/-- Total number of nodes in the store. -/
def nodeCount (g : Graph) : ℕ :=
  g.products.length + g.suppliers.length + g.warehouses.length

/-- Total number of relationships in the store. -/
def edgeCount (g : Graph) : ℕ :=
  g.supplies.length + g.storedAt.length + g.connectedTo.length

/-! ## Generation step and chat loop (`app.py` lines 99–163) -/

/-- One entry of `st.session_state.messages`. -/
structure ChatMessage where
  role : String
  content : String
deriving DecidableEq, Repr

/-- Model of `generate_gemini_response`: the `generate_content` call either raises
(`Except.error`), returns a response without a usable `text` attribute
(`ok none`), or returns text (`ok (some t)`, stripped).  Both failure
shapes become fixed sentinel strings; nothing propagates. -/
def generate_gemini_response (outcome : Except String (Option String)) :
    String :=
  match outcome with
  | Except.ok (some t) => t.trim
  | Except.ok none => "No response received from Gemini."
  | Except.error _ => "Error generating response."

/-- The chat-input handler (`app.py` lines 147–163): append the user turn,
compute the retrieval context, run generation on that context, append the
assistant turn.  `retrieve` abstracts `get_relevant_context`; `gen` maps
the already-computed context and the question to the raw generation
outcome, which `generate_gemini_response` wraps. -/
def chat_turn (retrieve : String → String)
    (gen : String → String → Except String (Option String))
    (messages : List ChatMessage) (prompt : String) : List ChatMessage :=
  let messages := messages ++ [{ role := "user", content := prompt }]
  let context := retrieve prompt
  let response := generate_gemini_response (gen context prompt)
  messages ++ [{ role := "assistant", content := response }]

/-! ## Connection lifecycle traces

`app.py` builds a fresh driver inside `get_relevant_context`, opens one
session in a `with` block, and closes the driver in a `finally` clause
guarded by a driver-in-locals check.  `load_data.py` instead creates one
module-level driver at import time, has every loader open sessions from
it, and closes it once at the end of the script.  We record the resource
events each code path emits. -/

/-- A resource event on the store adapter. -/
inductive StoreEvent
  | driverOpen
  | driverClose
  | sessionOpen
  | sessionClose
deriving DecidableEq, Repr

/-- Events emitted by one `get_relevant_context` call.  `driverOk` is
whether the driver construction succeeds (when it raises, `driver` is not
in `locals()` and the `finally` clause closes nothing).  `sessionOk` is
whether the session opens; `bodyOk` is whether the body (encode, query,
iteration) completes without raising.  The `with` block closes the session
and the `finally` clause closes the driver on success and on exception
alike, so the events do not depend on `bodyOk`. -/
def retrievalTrace (driverOk sessionOk bodyOk : Bool) : List StoreEvent :=
  if !driverOk then []
  else if !sessionOk then [StoreEvent.driverOpen, StoreEvent.driverClose]
  else
    let bodyEvents : List StoreEvent := if bodyOk then [] else []
    [StoreEvent.driverOpen, StoreEvent.sessionOpen] ++ bodyEvents ++
      [StoreEvent.sessionClose, StoreEvent.driverClose]

/-- Events emitted by one `load_suppliers` call: a single session scoped
by a `with` block on the module-level driver — no driver is opened or
closed by the call itself. -/
def load_suppliers_trace : List StoreEvent :=
  [StoreEvent.sessionOpen, StoreEvent.sessionClose]

/-- Events emitted by one `load_products` call on `n` product records: one
session for the index statement, then one session per product. -/
def load_products_trace (n : ℕ) : List StoreEvent :=
  [StoreEvent.sessionOpen, StoreEvent.sessionClose] ++
    (List.replicate n
      [StoreEvent.sessionOpen, StoreEvent.sessionClose]).flatten

/-- Events of the whole `load_data.py` script run on `n` product records:
driver opened at import, the five loader phases (each one session except
`load_products`), driver closed at the end of `__main__`. -/
def load_script_trace (n : ℕ) : List StoreEvent :=
  [StoreEvent.driverOpen] ++ load_products_trace n ++
    load_suppliers_trace ++ [StoreEvent.sessionOpen, StoreEvent.sessionClose] ++
    [StoreEvent.sessionOpen, StoreEvent.sessionClose] ++
    [StoreEvent.sessionOpen, StoreEvent.sessionClose] ++
    [StoreEvent.driverClose]

/-- A trace is balanced for a resource when it opens exactly as often as
it closes. -/
def balancedFor (t : List StoreEvent) (openEv closeEv : StoreEvent) : Prop :=
  t.count openEv = t.count closeEv

/-! ## Environment configuration (`app.py` lines 27–34,
`test_connection.py` lines 30–49) -/

/-- Model of `os.getenv` over an environment modelled as a key/value list. -/
def getenv (env : List (String × String)) (k : String) : Option String :=
  (env.find? (fun p => decide (p.1 = k))).map (fun p => p.2)

/-- The four configuration values `app.py` reads. -/
structure AppConfig where
  uri : Option String
  username : Option String
  password : Option String
  api_key : Option String
deriving DecidableEq, Repr

/-- Lines 27–33 of `app.py`: read the four variables; no value is checked. -/
def loadAppConfig (env : List (String × String)) : AppConfig :=
  { uri := getenv env "NEO4J_URI"
    username := getenv env "NEO4J_USERNAME"
    password := getenv env "NEO4J_PASSWORD"
    api_key := getenv env "GEMINI_API_KEY" }

/-- Observable startup actions of `app.py`. -/
inductive StartupEvent
  | genaiConfigure (api_key : Option String)
  | configError (msg : String)
deriving DecidableEq, Repr

/-- Line 34 of `app.py`: the configure call is made
unconditionally with whatever the environment yielded; no validation
event exists in the source. -/
def appStartupEvents (env : List (String × String)) : List StartupEvent :=
  [StartupEvent.genaiConfigure (loadAppConfig env).api_key]

/-- The argument tuple `get_relevant_context` passes to
`GraphDatabase.driver(uri, auth=(username, password))` — again with
whatever values the environment yielded, null or not. -/
def driverAttempt (cfg : AppConfig) :
    Option String × (Option String × Option String) :=
  (cfg.uri, (cfg.username, cfg.password))

/-- Model of `test_gemini_connection` from `test_connection.py`: a missing API key
raises `ValueError("GEMINI_API_KEY environment variable is not set")`,
which the handler within the function prints; otherwise the call outcome is
reported.  The returned string is the line the function prints. -/
def test_gemini_connection (api_key : Option String)
    (call : Except String (Option String)) : String :=
  match api_key with
  | none =>
    "❌ Gemini API connection error: GEMINI_API_KEY environment variable is not set"
  | some _ =>
    match call with
    | Except.error e => "❌ Gemini API connection error: " ++ e
    | Except.ok (some _) => "✅ Gemini API connection successful!"
    | Except.ok none => "❌ Gemini API connection failed: No response received"

/-! ## Concrete fixtures used by the witness theorems -/

/-- A store with one embedded and one embedding-less product, one supplier
and one warehouse, used to instantiate the retrieval theorems. -/
def gW : Graph :=
  { products := [⟨"p1", "Laptop", "A laptop", 10, "tech", some [1, 0]⟩,
                 ⟨"p2", "Phone", "A phone", 5, "tech", none⟩],
    suppliers := [⟨"s1", "Acme", "Berlin", "tech"⟩],
    warehouses := [⟨"w1", "Main", "Berlin", 100⟩],
    supplies := [("s1", "p1")],
    storedAt := [("p1", "w1")],
    connectedTo := [],
    indexCreated := true }

/-- The empty store. -/
def emptyGraph : Graph :=
  { products := [], suppliers := [], warehouses := [],
    supplies := [], storedAt := [], connectedTo := [], indexCreated := false }

/-- A small fixture set: one product, one supplier, one warehouse, one
route, and two relationship records — the second of which names a supplier
id that is never loaded. -/
def fixW : FixtureData :=
  { products := [⟨"p1", "Laptop", "A laptop", 10, "tech"⟩],
    suppliers := [⟨"s1", "Acme", "Berlin", "tech"⟩],
    warehouses := [⟨"w1", "Main", "Berlin", 100⟩],
    routes := [⟨"w1", "w1", 3, 4⟩],
    relationships := [⟨"s1", "p1", "w1"⟩, ⟨"sX", "p1", "w1"⟩] }

/-- A fixed embedding function for witness instantiations. -/
def encW : String → List ℚ := fun _ => [1, 0]

/-! ## Sorting lemmas for the similarity ranking -/

theorem mem_insertDesc {α : Type} {x y : α × ℚ} :
    ∀ {l : List (α × ℚ)}, y ∈ insertDesc x l ↔ y = x ∨ y ∈ l := by
  intro l
  induction l with
  | nil => simp [insertDesc]
  | cons z zs ih =>
    simp only [insertDesc]
    split
    · simp [List.mem_cons]
    · simp only [List.mem_cons, ih]
      tauto

theorem sorted_insertDesc {α : Type} (x : α × ℚ) {l : List (α × ℚ)}
    (h : List.Sorted (fun a b : α × ℚ => b.2 ≤ a.2) l) :
    List.Sorted (fun a b : α × ℚ => b.2 ≤ a.2) (insertDesc x l) := by
  induction l with
  | nil => simp [insertDesc]
  | cons z zs ih =>
    rw [List.sorted_cons] at h
    obtain ⟨hz, hzs⟩ := h
    simp only [insertDesc]
    split
    · rename_i hlt
      rw [List.sorted_cons]
      refine ⟨?_, List.sorted_cons.mpr ⟨hz, hzs⟩⟩
      intro b hb
      rcases List.mem_cons.mp hb with rfl | hb
      · exact le_of_lt hlt
      · exact le_trans (hz b hb) (le_of_lt hlt)
    · rename_i hnlt
      rw [List.sorted_cons]
      refine ⟨?_, ih hzs⟩
      intro b hb
      rcases mem_insertDesc.mp hb with rfl | hb
      · exact not_lt.mp hnlt
      · exact hz b hb

theorem sorted_sortDesc {α : Type} (l : List (α × ℚ)) :
    List.Sorted (fun a b : α × ℚ => b.2 ≤ a.2) (sortDesc l) := by
  induction l with
  | nil => simp [sortDesc]
  | cons x xs ih => exact sorted_insertDesc x ih

theorem mem_sortDesc {α : Type} {y : α × ℚ} :
    ∀ {l : List (α × ℚ)}, y ∈ sortDesc l ↔ y ∈ l := by
  intro l
  induction l with
  | nil => simp [sortDesc]
  | cons x xs ih =>
    simp only [sortDesc, mem_insertDesc, ih, List.mem_cons]

/-! ## Claims C1–C3: the retrieval step -/

/-- C1: for every question embedding (of the declared dimensionality shared
by all stored embeddings), the similarity query ranks exactly the products
with a non-null `description_embedding`, scores each as the plain dot
product of the stored embedding with the question embedding, and returns
at most 3 rows in descending score order. -/
theorem retrieval_top3_dot_product (g : Graph) (q : List ℚ)
    (hdim : ∀ p ∈ g.products, ∀ e, p.description_embedding = some e →
      e.length = q.length) :
    (rankedProducts g q).length ≤ 3 ∧
    List.Sorted (fun a b : ProductNode × ℚ => b.2 ≤ a.2)
      (rankedProducts g q) ∧
    (∀ pr ∈ rankedProducts g q, pr.1 ∈ g.products ∧
      ∃ e, pr.1.description_embedding = some e ∧ e.length = q.length ∧
        pr.2 = dotProduct e q) := by
  refine ⟨?_, ?_, ?_⟩
  · rw [rankedProducts, List.length_take]
    exact min_le_left _ _
  · exact List.Pairwise.sublist (List.take_sublist _ _) (sorted_sortDesc _)
  · intro pr hpr
    have h1 : pr ∈ sortDesc (scoredCandidates g q) :=
      List.take_subset _ _ hpr
    have h2 : pr ∈ scoredCandidates g q := mem_sortDesc.mp h1
    simp only [scoredCandidates, List.mem_map, List.mem_filter] at h2
    obtain ⟨p, ⟨hp, hsome⟩, rfl⟩ := h2
    obtain ⟨e, he⟩ := Option.isSome_iff_exists.mp hsome
    exact ⟨hp, e, he, hdim p hp e he, by simp [he]⟩

/-- Witness for C1 at the concrete store `gW` and question embedding
`[0, 1]`. -/
theorem retrieval_top3_dot_product_witness :
    (∀ p ∈ gW.products, ∀ e, p.description_embedding = some e →
      e.length = ([0, 1] : List ℚ).length) ∧
    ((rankedProducts gW [0, 1]).length ≤ 3 ∧
     List.Sorted (fun a b : ProductNode × ℚ => b.2 ≤ a.2)
       (rankedProducts gW [0, 1]) ∧
     (∀ pr ∈ rankedProducts gW [0, 1], pr.1 ∈ gW.products ∧
       ∃ e, pr.1.description_embedding = some e ∧
         e.length = ([0, 1] : List ℚ).length ∧
         pr.2 = dotProduct e [0, 1])) := by
  have hdim : ∀ p ∈ gW.products, ∀ e, p.description_embedding = some e →
      e.length = ([0, 1] : List ℚ).length := by
    intro p hp e he
    simp only [gW, List.mem_cons, List.not_mem_nil, or_false] at hp
    rcases hp with rfl | rfl
    · simp only [Option.some.injEq] at he
      subst he
      rfl
    · simp at he
  exact ⟨hdim, retrieval_top3_dot_product gW [0, 1] hdim⟩

/-- C2: when no product has a non-null `description_embedding`, the query
returns no rows and the retrieval step returns exactly the sentinel
`"No relevant context found."`. -/
theorem retrieval_empty_sentinel (g : Graph) (enc : String → List ℚ)
    (question : String)
    (h : ∀ p ∈ g.products, p.description_embedding = none) :
    get_relevant_context (Except.ok g) (some enc) question =
      "No relevant context found." := by
  have hfilter :
      g.products.filter (fun p => p.description_embedding.isSome) = [] := by
    rw [List.filter_eq_nil_iff]
    intro p hp
    simp [h p hp]
  have hrows : queryRows g (enc question) = [] := by
    simp [queryRows, rankedProducts, scoredCandidates, hfilter, sortDesc]
  simp [get_relevant_context, hrows, renderFold]

/-- Witness for C2: a store whose only product has a null embedding. -/
theorem retrieval_empty_sentinel_witness :
    (∀ p ∈ ({ gW with
        products := [⟨"p2", "Phone", "A phone", 5, "tech", none⟩] } :
          Graph).products, p.description_embedding = none) ∧
    get_relevant_context
      (Except.ok { gW with
        products := [⟨"p2", "Phone", "A phone", 5, "tech", none⟩] })
      (some (fun _ => [0, 1])) "any question" =
      "No relevant context found." := by
  refine ⟨?_, retrieval_empty_sentinel _ _ _ ?_⟩ <;>
    · intro p hp
      simp only [List.mem_cons, List.not_mem_nil, or_false] at hp
      subst hp
      rfl

/-- C3: the retrieval step never propagates store or embedding failures —
whenever the store interaction fails or the embedding model failed to load
at process start, it returns exactly the sentinel
`"Error retrieving context."`. -/
theorem retrieval_error_sentinel (store : Except Unit Graph)
    (model : Option (String → List ℚ)) (question : String)
    (h : store = Except.error () ∨ model = none) :
    get_relevant_context store model question = "Error retrieving context." := by
  rcases h with rfl | rfl
  · rfl
  · cases store <;> rfl

/-- Witness for C3: the embedding model failed to load (it is `none`)
while the store is reachable. -/
theorem retrieval_error_sentinel_witness :
    ((Except.ok gW : Except Unit Graph) = Except.error () ∨
      (none : Option (String → List ℚ)) = none) ∧
    get_relevant_context (Except.ok gW) none "any question" =
      "Error retrieving context." :=
  ⟨Or.inr rfl, retrieval_error_sentinel (Except.ok gW) none "any question"
    (Or.inr rfl)⟩

/-! ## Upsert and merge replay lemmas

`upsertBy` is idempotent once its target is *settled*: some element of
the list carries the merge key, and every element carrying it already
equals the merged value.  A first pass over key-distinct records settles
every record, so a second identical pass is the identity. -/

/-- The merge target of `a` is settled in `l`: the key is present and
every occurrence already holds exactly `a`. -/
def settled {α κ : Type} [DecidableEq κ] (key : α → κ) (l : List α)
    (a : α) : Prop :=
  (∃ b ∈ l, key b = key a) ∧ (∀ b ∈ l, key b = key a → b = a)

theorem upsertBy_of_settled {α κ : Type} [DecidableEq κ] (key : α → κ)
    {l : List α} {a : α} (h : settled key l a) : upsertBy key l a = l := by
  obtain ⟨⟨b0, hb0, hk0⟩, hall⟩ := h
  rw [upsertBy, if_pos]
  · have hmap : ∀ b ∈ l, (if key b = key a then a else b) = b := by
      intro b hb
      split
      · exact (hall b hb (by assumption)).symm
      · rfl
    rw [List.map_congr_left hmap]
    exact List.map_id l
  · rw [List.any_eq_true]
    exact ⟨b0, hb0, decide_eq_true hk0⟩

theorem settled_upsertBy_self {α κ : Type} [DecidableEq κ] (key : α → κ)
    (l : List α) (a : α) : settled key (upsertBy key l a) a := by
  rw [upsertBy]
  split
  · rename_i hany
    rw [List.any_eq_true] at hany
    obtain ⟨b0, hb0, hd0⟩ := hany
    have hk0 : key b0 = key a := of_decide_eq_true hd0
    constructor
    · exact ⟨a, List.mem_map.mpr ⟨b0, hb0, by rw [if_pos hk0]⟩, rfl⟩
    · intro b hb hkb
      obtain ⟨b1, hb1, rfl⟩ := List.mem_map.mp hb
      by_cases h1 : key b1 = key a
      · rw [if_pos h1]
      · rw [if_neg h1] at hkb ⊢
        exact absurd hkb h1
  · rename_i hany
    constructor
    · exact ⟨a, List.mem_append.mpr (Or.inr (List.mem_singleton.mpr rfl)), rfl⟩
    · intro b hb hkb
      rcases List.mem_append.mp hb with hb | hb
      · exact absurd (List.any_eq_true.mpr ⟨b, hb, decide_eq_true hkb⟩) hany
      · exact List.mem_singleton.mp hb

theorem settled_upsertBy_other {α κ : Type} [DecidableEq κ] (key : α → κ)
    {l : List α} {a : α} (c : α) (hne : key a ≠ key c)
    (h : settled key l a) : settled key (upsertBy key l c) a := by
  obtain ⟨⟨b0, hb0, hk0⟩, hall⟩ := h
  rw [upsertBy]
  split
  · constructor
    · refine ⟨b0, List.mem_map.mpr ⟨b0, hb0, ?_⟩, hk0⟩
      rw [if_neg]
      intro hcon
      exact hne (hk0 ▸ hcon)
    · intro b hb hkb
      obtain ⟨b1, hb1, rfl⟩ := List.mem_map.mp hb
      by_cases h1 : key b1 = key c
      · rw [if_pos h1] at hkb
        exact absurd hkb.symm hne
      · rw [if_neg h1] at hkb ⊢
        exact hall b1 hb1 hkb
  · constructor
    · exact ⟨b0, List.mem_append.mpr (Or.inl hb0), hk0⟩
    · intro b hb hkb
      rcases List.mem_append.mp hb with hb | hb
      · exact hall b hb hkb
      · rw [List.mem_singleton.mp hb] at hkb
        exact absurd hkb.symm hne

/-- A conditional merge pass (`if c r then upsertBy ... else`) preserves a
settled target whose key differs from every merged key. -/
theorem settled_foldl_other {α κ ρ : Type} [DecidableEq κ] (key : α → κ)
    (c : ρ → Bool) (toE : ρ → α) {a : α} :
    ∀ (rs : List ρ) (l : List α), settled key l a →
      (∀ r ∈ rs, key a ≠ key (toE r)) →
      settled key
        (rs.foldl (fun l r => if c r then upsertBy key l (toE r) else l) l)
        a := by
  intro rs
  induction rs with
  | nil => intro l h _; exact h
  | cons r0 rs ih =>
    intro l h hne
    rw [List.foldl_cons]
    by_cases hc : c r0 = true
    · rw [if_pos hc]
      exact ih _ (settled_upsertBy_other key (toE r0)
        (hne r0 (List.mem_cons_self r0 rs)) h)
        (fun r hr => hne r (List.mem_cons_of_mem r0 hr))
    · rw [if_neg hc]
      exact ih _ h (fun r hr => hne r (List.mem_cons_of_mem r0 hr))

/-- After one conditional merge pass over key-distinct records, every
record whose condition held is settled. -/
theorem settled_after_foldl {α κ ρ : Type} [DecidableEq κ] (key : α → κ)
    (c : ρ → Bool) (toE : ρ → α) :
    ∀ (rs : List ρ) (l : List α),
      rs.Pairwise (fun r1 r2 => key (toE r1) ≠ key (toE r2)) →
      ∀ r ∈ rs, c r = true →
        settled key
          (rs.foldl (fun l r => if c r then upsertBy key l (toE r) else l) l)
          (toE r) := by
  intro rs
  induction rs with
  | nil => intro l _ r hr; cases hr
  | cons r0 rs ih =>
    intro l hdist r hr hc
    rw [List.pairwise_cons] at hdist
    obtain ⟨hd0, hdtail⟩ := hdist
    rw [List.foldl_cons]
    rcases List.mem_cons.mp hr with rfl | hr
    · rw [if_pos hc]
      exact settled_foldl_other key c toE rs _
        (settled_upsertBy_self key l (toE r))
        (fun r1 hr1 => (hd0 r1 hr1).symm ∘ Eq.symm)
    · by_cases hc0 : c r0 = true
      · rw [if_pos hc0]
        exact ih _ hdtail r hr hc
      · rw [if_neg hc0]
        exact ih _ hdtail r hr hc

/-- A conditional merge pass over records all of whose targets are already
settled is the identity. -/
theorem foldl_upsert_id {α κ ρ : Type} [DecidableEq κ] (key : α → κ)
    (c : ρ → Bool) (toE : ρ → α) :
    ∀ (rs : List ρ) (l : List α),
      (∀ r ∈ rs, c r = true → settled key l (toE r)) →
      rs.foldl (fun l r => if c r then upsertBy key l (toE r) else l) l = l := by
  intro rs
  induction rs with
  | nil => intro l _; rfl
  | cons r0 rs ih =>
    intro l h
    rw [List.foldl_cons]
    by_cases hc : c r0 = true
    · rw [if_pos hc, upsertBy_of_settled key (h r0 (List.mem_cons_self r0 rs) hc)]
      exact ih l (fun r hr => h r (List.mem_cons_of_mem r0 hr))
    · rw [if_neg hc]
      exact ih l (fun r hr => h r (List.mem_cons_of_mem r0 hr))

/-- Replaying an identical conditional merge pass (with conditions that do
not depend on the merged list) over key-distinct records is the identity. -/
theorem foldl_upsert_replay {α κ ρ : Type} [DecidableEq κ] (key : α → κ)
    (c : ρ → Bool) (toE : ρ → α) (rs : List ρ) (l : List α)
    (hdist : rs.Pairwise (fun r1 r2 => key (toE r1) ≠ key (toE r2))) :
    rs.foldl (fun l r => if c r then upsertBy key l (toE r) else l)
      (rs.foldl (fun l r => if c r then upsertBy key l (toE r) else l) l) =
    rs.foldl (fun l r => if c r then upsertBy key l (toE r) else l) l :=
  foldl_upsert_id key c toE rs _
    (fun r hr hc => settled_after_foldl key c toE rs l hdist r hr hc)

/-! ## Insert-edge replay lemmas (attribute-less relationship merges) -/

theorem insertEdge_mem_self (es : List (String × String))
    (e : String × String) : e ∈ insertEdge es e := by
  rw [insertEdge]
  split
  · assumption
  · exact List.mem_append.mpr (Or.inr (List.mem_singleton.mpr rfl))

theorem insertEdge_mem_mono {es : List (String × String)}
    {x : String × String} (e : String × String) (h : x ∈ es) :
    x ∈ insertEdge es e := by
  rw [insertEdge]
  split
  · exact h
  · exact List.mem_append.mpr (Or.inl h)

theorem insertEdge_of_mem {es : List (String × String)}
    {e : String × String} (h : e ∈ es) : insertEdge es e = es := by
  rw [insertEdge, if_pos h]

theorem foldl_insertEdge_mem_mono {ρ : Type} (c : ρ → Bool)
    (f : ρ → String × String) :
    ∀ (rs : List ρ) (es : List (String × String)) (x : String × String),
      x ∈ es →
      x ∈ rs.foldl (fun es r => if c r then insertEdge es (f r) else es) es := by
  intro rs
  induction rs with
  | nil => intro es x h; exact h
  | cons r0 rs ih =>
    intro es x h
    rw [List.foldl_cons]
    by_cases hc : c r0 = true
    · rw [if_pos hc]
      exact ih _ x (insertEdge_mem_mono (f r0) h)
    · rw [if_neg hc]
      exact ih _ x h

theorem foldl_insertEdge_mem {ρ : Type} (c : ρ → Bool)
    (f : ρ → String × String) :
    ∀ (rs : List ρ) (es : List (String × String)), ∀ r ∈ rs, c r = true →
      f r ∈ rs.foldl (fun es r => if c r then insertEdge es (f r) else es) es := by
  intro rs
  induction rs with
  | nil => intro es r hr; cases hr
  | cons r0 rs ih =>
    intro es r hr hc
    rw [List.foldl_cons]
    rcases List.mem_cons.mp hr with rfl | hr
    · rw [if_pos hc]
      exact foldl_insertEdge_mem_mono c f rs _ (f r) (insertEdge_mem_self es (f r))
    · by_cases hc0 : c r0 = true
      · rw [if_pos hc0]
        exact ih _ r hr hc
      · rw [if_neg hc0]
        exact ih _ r hr hc

theorem foldl_insertEdge_id {ρ : Type} (c : ρ → Bool)
    (f : ρ → String × String) :
    ∀ (rs : List ρ) (es : List (String × String)),
      (∀ r ∈ rs, c r = true → f r ∈ es) →
      rs.foldl (fun es r => if c r then insertEdge es (f r) else es) es = es := by
  intro rs
  induction rs with
  | nil => intro es _; rfl
  | cons r0 rs ih =>
    intro es h
    rw [List.foldl_cons]
    by_cases hc : c r0 = true
    · rw [if_pos hc, insertEdge_of_mem (h r0 (List.mem_cons_self r0 rs) hc)]
      exact ih es (fun r hr => h r (List.mem_cons_of_mem r0 hr))
    · rw [if_neg hc]
      exact ih es (fun r hr => h r (List.mem_cons_of_mem r0 hr))

/-- Replaying an identical attribute-less merge pass is the identity —
no key-distinctness is needed, since a repeated merge of the same edge is
a no-op by construction. -/
theorem foldl_insertEdge_replay {ρ : Type} (c : ρ → Bool)
    (f : ρ → String × String) (rs : List ρ) (es : List (String × String)) :
    rs.foldl (fun es r => if c r then insertEdge es (f r) else es)
      (rs.foldl (fun es r => if c r then insertEdge es (f r) else es) es) =
    rs.foldl (fun es r => if c r then insertEdge es (f r) else es) es :=
  foldl_insertEdge_id c f rs _
    (fun r hr hc => foldl_insertEdge_mem c f rs es r hr hc)

/-- Unconditional variant of `foldl_upsert_replay` for the node phases. -/
theorem foldl_upsert_replay_uncond {α κ ρ : Type} [DecidableEq κ]
    (key : α → κ) (toE : ρ → α) (rs : List ρ) (l : List α)
    (hdist : rs.Pairwise (fun r1 r2 => key (toE r1) ≠ key (toE r2))) :
    rs.foldl (fun l r => upsertBy key l (toE r))
      (rs.foldl (fun l r => upsertBy key l (toE r)) l) =
    rs.foldl (fun l r => upsertBy key l (toE r)) l := by
  have h := foldl_upsert_replay key (fun _ => true) toE rs l hdist
  simpa using h

/-! ## Component equations for the ingestion phases -/

theorem create_relationships_products (rs : List RelRecord) :
    ∀ g : Graph, (create_relationships g rs).products = g.products := by
  induction rs with
  | nil => intro g; rfl
  | cons r rs ih =>
    intro g
    show (create_relationships (relStep g r) rs).products = g.products
    rw [ih (relStep g r)]
    rfl

theorem create_relationships_suppliers (rs : List RelRecord) :
    ∀ g : Graph, (create_relationships g rs).suppliers = g.suppliers := by
  induction rs with
  | nil => intro g; rfl
  | cons r rs ih =>
    intro g
    show (create_relationships (relStep g r) rs).suppliers = g.suppliers
    rw [ih (relStep g r)]
    rfl

theorem create_relationships_warehouses (rs : List RelRecord) :
    ∀ g : Graph, (create_relationships g rs).warehouses = g.warehouses := by
  induction rs with
  | nil => intro g; rfl
  | cons r rs ih =>
    intro g
    show (create_relationships (relStep g r) rs).warehouses = g.warehouses
    rw [ih (relStep g r)]
    rfl

theorem create_relationships_connectedTo (rs : List RelRecord) :
    ∀ g : Graph, (create_relationships g rs).connectedTo = g.connectedTo := by
  induction rs with
  | nil => intro g; rfl
  | cons r rs ih =>
    intro g
    show (create_relationships (relStep g r) rs).connectedTo = g.connectedTo
    rw [ih (relStep g r)]
    rfl

theorem create_relationships_indexCreated (rs : List RelRecord) :
    ∀ g : Graph, (create_relationships g rs).indexCreated = g.indexCreated := by
  induction rs with
  | nil => intro g; rfl
  | cons r rs ih =>
    intro g
    show (create_relationships (relStep g r) rs).indexCreated = g.indexCreated
    rw [ih (relStep g r)]
    rfl

theorem create_relationships_supplies (rs : List RelRecord) :
    ∀ g : Graph, (create_relationships g rs).supplies =
      rs.foldl (fun es r => suppliesMerge g.suppliers g.products es r)
        g.supplies := by
  induction rs with
  | nil => intro g; rfl
  | cons r rs ih =>
    intro g
    show (create_relationships (relStep g r) rs).supplies = _
    rw [ih (relStep g r), List.foldl_cons]
    rfl

theorem create_relationships_storedAt (rs : List RelRecord) :
    ∀ g : Graph, (create_relationships g rs).storedAt =
      rs.foldl (fun es r => storedAtMerge g.products g.warehouses es r)
        g.storedAt := by
  induction rs with
  | nil => intro g; rfl
  | cons r rs ih =>
    intro g
    show (create_relationships (relStep g r) rs).storedAt = _
    rw [ih (relStep g r), List.foldl_cons]
    rfl

theorem load_all_data_products (enc : String → List ℚ) (data : FixtureData)
    (g : Graph) :
    (load_all_data enc data g).products =
      data.products.foldl
        (fun l r => upsertBy ProductNode.id l (productNodeOf enc r))
        g.products := by
  rw [load_all_data, create_relationships_products]
  rfl

theorem load_all_data_suppliers (enc : String → List ℚ) (data : FixtureData)
    (g : Graph) :
    (load_all_data enc data g).suppliers =
      data.suppliers.foldl
        (fun l r => upsertBy SupplierNode.id l (supplierNodeOf r))
        g.suppliers := by
  rw [load_all_data, create_relationships_suppliers]
  rfl

theorem load_all_data_warehouses (enc : String → List ℚ) (data : FixtureData)
    (g : Graph) :
    (load_all_data enc data g).warehouses =
      data.warehouses.foldl
        (fun l r => upsertBy WarehouseNode.id l (warehouseNodeOf r))
        g.warehouses := by
  rw [load_all_data, create_relationships_warehouses]
  rfl

theorem load_all_data_indexCreated (enc : String → List ℚ)
    (data : FixtureData) (g : Graph) :
    (load_all_data enc data g).indexCreated = true := by
  rw [load_all_data, create_relationships_indexCreated]
  rfl

theorem load_all_data_connectedTo (enc : String → List ℚ)
    (data : FixtureData) (g : Graph) :
    (load_all_data enc data g).connectedTo =
      data.routes.foldl
        (mergeRoute (data.warehouses.foldl
          (fun l r => upsertBy WarehouseNode.id l (warehouseNodeOf r))
          g.warehouses))
        g.connectedTo := by
  rw [load_all_data, create_relationships_connectedTo]
  rfl

theorem load_all_data_supplies (enc : String → List ℚ) (data : FixtureData)
    (g : Graph) :
    (load_all_data enc data g).supplies =
      data.relationships.foldl
        (fun es r => suppliesMerge
          (data.suppliers.foldl
            (fun l r => upsertBy SupplierNode.id l (supplierNodeOf r))
            g.suppliers)
          (data.products.foldl
            (fun l r => upsertBy ProductNode.id l (productNodeOf enc r))
            g.products)
          es r)
        g.supplies := by
  rw [load_all_data, create_relationships_supplies]
  rfl

theorem load_all_data_storedAt (enc : String → List ℚ) (data : FixtureData)
    (g : Graph) :
    (load_all_data enc data g).storedAt =
      data.relationships.foldl
        (fun es r => storedAtMerge
          (data.products.foldl
            (fun l r => upsertBy ProductNode.id l (productNodeOf enc r))
            g.products)
          (data.warehouses.foldl
            (fun l r => upsertBy WarehouseNode.id l (warehouseNodeOf r))
            g.warehouses)
          es r)
        g.storedAt := by
  rw [load_all_data, create_relationships_storedAt]
  rfl

/-- Running the whole pipeline a second time on its own output changes
nothing, provided each fixture file carries its records under distinct
merge keys (the id-uniqueness invariant stated by the spec). -/
theorem load_all_data_idem (enc : String → List ℚ) (data : FixtureData)
    (g : Graph)
    (hp : data.products.Pairwise (fun a b => a.id ≠ b.id))
    (hs : data.suppliers.Pairwise (fun a b => a.id ≠ b.id))
    (hw : data.warehouses.Pairwise (fun a b => a.id ≠ b.id))
    (hr : data.routes.Pairwise (fun a b => (a.src, a.dst) ≠ (b.src, b.dst))) :
    load_all_data enc data (load_all_data enc data g) =
      load_all_data enc data g := by
  have hp' : data.products.Pairwise
      (fun r1 r2 => (productNodeOf enc r1).id ≠ (productNodeOf enc r2).id) := hp
  have hs' : data.suppliers.Pairwise
      (fun r1 r2 => (supplierNodeOf r1).id ≠ (supplierNodeOf r2).id) := hs
  have hw' : data.warehouses.Pairwise
      (fun r1 r2 => (warehouseNodeOf r1).id ≠ (warehouseNodeOf r2).id) := hw
  apply Graph.ext
  · rw [load_all_data_products enc data (load_all_data enc data g),
      load_all_data_products enc data g]
    exact foldl_upsert_replay_uncond ProductNode.id (productNodeOf enc)
      data.products g.products hp'
  · rw [load_all_data_suppliers enc data (load_all_data enc data g),
      load_all_data_suppliers enc data g]
    exact foldl_upsert_replay_uncond SupplierNode.id supplierNodeOf
      data.suppliers g.suppliers hs'
  · rw [load_all_data_warehouses enc data (load_all_data enc data g),
      load_all_data_warehouses enc data g]
    exact foldl_upsert_replay_uncond WarehouseNode.id warehouseNodeOf
      data.warehouses g.warehouses hw'
  · rw [load_all_data_supplies enc data (load_all_data enc data g),
      load_all_data_suppliers enc data g, load_all_data_products enc data g,
      foldl_upsert_replay_uncond SupplierNode.id supplierNodeOf
        data.suppliers g.suppliers hs',
      foldl_upsert_replay_uncond ProductNode.id (productNodeOf enc)
        data.products g.products hp',
      load_all_data_supplies enc data g]
    exact foldl_insertEdge_replay _ (fun r => (r.supplier_id, r.product_id))
      data.relationships g.supplies
  · rw [load_all_data_storedAt enc data (load_all_data enc data g),
      load_all_data_products enc data g, load_all_data_warehouses enc data g,
      foldl_upsert_replay_uncond ProductNode.id (productNodeOf enc)
        data.products g.products hp',
      foldl_upsert_replay_uncond WarehouseNode.id warehouseNodeOf
        data.warehouses g.warehouses hw',
      load_all_data_storedAt enc data g]
    exact foldl_insertEdge_replay _ (fun r => (r.product_id, r.warehouse_id))
      data.relationships g.storedAt
  · rw [load_all_data_connectedTo enc data (load_all_data enc data g),
      load_all_data_warehouses enc data g,
      foldl_upsert_replay_uncond WarehouseNode.id warehouseNodeOf
        data.warehouses g.warehouses hw',
      load_all_data_connectedTo enc data g]
    exact foldl_upsert_replay (fun e => (e.src, e.dst)) _
      (fun r => ⟨r.src, r.dst, r.distance, r.duration⟩)
      data.routes g.connectedTo hr
  · rw [load_all_data_indexCreated enc data (load_all_data enc data g),
      load_all_data_indexCreated enc data g]

/-! ## Claim C4: context rendering -/

theorem foldl_append_if_filter {α : Type} (p : α → Bool) (f : α → String) :
    ∀ (l : List α) (c0 : List String),
      l.foldl (fun c n => if p n then c ++ [f n] else c) c0 =
        c0 ++ (l.filter p).map f := by
  intro l
  induction l with
  | nil => intro c0; simp
  | cons a l ih =>
    intro c0
    rw [List.foldl_cons, List.filter_cons]
    by_cases h : p a = true
    · rw [if_pos h, if_pos h, ih]
      simp
    · rw [if_neg h, if_neg h, ih]

theorem if_isEmpty_foldl {α β : Type} (step : β → α → β) :
    ∀ (l : List α) (c0 : β),
      (if l.isEmpty then c0 else l.foldl step c0) = l.foldl step c0 := by
  intro l c0
  cases l <;> rfl

theorem foldl_append_warehouse_lines (l : List (Option String × Option String))
    (c0 : List String) :
    l.foldl (fun c w =>
        if truthy w.1 then
          c ++ ["Stored at: " ++ pyStr w.1 ++ " in " ++ pyStr w.2]
        else c) c0 =
      c0 ++ (l.filter (fun w => truthy w.1)).map
        (fun w => "Stored at: " ++ pyStr w.1 ++ " in " ++ pyStr w.2) := by
  have h := foldl_append_if_filter (fun w : Option String × Option String =>
      truthy w.1)
    (fun w : Option String × Option String =>
      "Stored at: " ++ pyStr w.1 ++ " in " ++ pyStr w.2) l c0
  simpa using h

theorem renderStep_eq (ctx : List String) (r : Row) :
    renderStep ctx r = ctx ++ renderBlockAmended r := by
  simp only [renderStep, if_isEmpty_foldl]
  rw [foldl_append_if_filter truthy (fun n => "Supplied by: " ++ pyStr n),
    foldl_append_warehouse_lines]
  simp [renderBlockAmended, List.append_assoc]

theorem renderFold_aux :
    ∀ (rows : List Row) (ctx : List String),
      rows.foldl renderStep ctx =
        ctx ++ (rows.map renderBlockAmended).flatten := by
  intro rows
  induction rows with
  | nil => intro ctx; simp
  | cons r rows ih =>
    intro ctx
    rw [List.foldl_cons, renderStep_eq, ih]
    simp [List.append_assoc]

/-- C4 counterexample: a result row carrying one *non-null* supplier entry
whose name is the empty string renders with no `Supplied by:` line at all —
the code filters by Python truthiness, not by non-nullness. -/
theorem render_nonnull_name_counterexample :
    (Row.mk "P" "D" [some ""] [(none, none)]).suppliers = [some ""] ∧
    (some "" : Option String) ≠ none ∧
    renderFold [Row.mk "P" "D" [some ""] [(none, none)]] =
      ["Product: P", "Description: D", "---"] := by
  decide

/-- C4 (amended): for every result-row list, the rendered context is, per
row in ranked order, the `Product:` line, the `Description:` line, one
`Supplied by:` line per supplier entry with a truthy (non-null, non-empty)
name, one `Stored at:` line per warehouse entry with a truthy name, then
the separator line, with the blocks concatenated in ranked order. -/
theorem render_context_blocks (rows : List Row) :
    renderFold rows = (rows.map renderBlockAmended).flatten := by
  rw [renderFold, renderFold_aux]
  rfl

/-! ## Claim C5: ingestion idempotence -/

/-- C5: running the pipeline twice on identical fixture inputs (with the
distinct-merge-key invariant the spec states per fixture file) leaves the store
identical to one run — in particular the node and edge counts agree. -/
theorem ingestion_idempotent (enc : String → List ℚ) (data : FixtureData)
    (g : Graph)
    (hp : data.products.Pairwise (fun a b => a.id ≠ b.id))
    (hs : data.suppliers.Pairwise (fun a b => a.id ≠ b.id))
    (hw : data.warehouses.Pairwise (fun a b => a.id ≠ b.id))
    (hr : data.routes.Pairwise (fun a b => (a.src, a.dst) ≠ (b.src, b.dst))) :
    load_all_data enc data (load_all_data enc data g) =
      load_all_data enc data g ∧
    nodeCount (load_all_data enc data (load_all_data enc data g)) =
      nodeCount (load_all_data enc data g) ∧
    edgeCount (load_all_data enc data (load_all_data enc data g)) =
      edgeCount (load_all_data enc data g) := by
  have h := load_all_data_idem enc data g hp hs hw hr
  exact ⟨h, by rw [h], by rw [h]⟩

/-- Witness for C5 at the concrete fixture set `fixW`, starting from the
empty store. -/
theorem ingestion_idempotent_witness :
    (fixW.products.Pairwise (fun a b => a.id ≠ b.id) ∧
     fixW.suppliers.Pairwise (fun a b => a.id ≠ b.id) ∧
     fixW.warehouses.Pairwise (fun a b => a.id ≠ b.id) ∧
     fixW.routes.Pairwise (fun a b => (a.src, a.dst) ≠ (b.src, b.dst))) ∧
    (load_all_data encW fixW (load_all_data encW fixW emptyGraph) =
       load_all_data encW fixW emptyGraph ∧
     nodeCount (load_all_data encW fixW (load_all_data encW fixW emptyGraph)) =
       nodeCount (load_all_data encW fixW emptyGraph) ∧
     edgeCount (load_all_data encW fixW (load_all_data encW fixW emptyGraph)) =
       edgeCount (load_all_data encW fixW emptyGraph)) :=
  ⟨⟨by decide, by decide, by decide, by decide⟩,
    ingestion_idempotent encW fixW emptyGraph
      (by decide) (by decide) (by decide) (by decide)⟩

/-! ## Claims C6 and C10: relationship merges against missing endpoints -/

/-- C6: a relationship record whose supplier id is absent leaves the
SUPPLIES edges untouched, one whose warehouse id is absent leaves the
STORED_AT edges untouched, and a route record whose source warehouse id is
absent leaves the CONNECTED_TO edges untouched — each failing match is a
silent no-op, never an error. -/
theorem missing_endpoint_silent_skip (g : Graph) (r : RelRecord)
    (rt : RouteRecord)
    (h1 : ∀ s ∈ g.suppliers, s.id ≠ r.supplier_id)
    (h2 : ∀ w ∈ g.warehouses, w.id ≠ r.warehouse_id)
    (h3 : ∀ w ∈ g.warehouses, w.id ≠ rt.src) :
    suppliesMerge g.suppliers g.products g.supplies r = g.supplies ∧
    storedAtMerge g.products g.warehouses g.storedAt r = g.storedAt ∧
    mergeRoute g.warehouses g.connectedTo rt = g.connectedTo := by
  have ha : g.suppliers.any (fun s => decide (s.id = r.supplier_id)) = false := by
    simp only [List.any_eq_false, decide_eq_true_eq]
    exact h1
  have hb : g.warehouses.any (fun w => decide (w.id = r.warehouse_id)) = false := by
    simp only [List.any_eq_false, decide_eq_true_eq]
    exact h2
  have hc : g.warehouses.any (fun w => decide (w.id = rt.src)) = false := by
    simp only [List.any_eq_false, decide_eq_true_eq]
    exact h3
  refine ⟨?_, ?_, ?_⟩
  · simp [suppliesMerge, ha]
  · simp [storedAtMerge, hb]
  · simp [mergeRoute, hc]

/-- Witness for C6 at the store `gW` with a record naming the unknown ids
`sX` and `wX`. -/
theorem missing_endpoint_silent_skip_witness :
    ((∀ s ∈ gW.suppliers, s.id ≠ "sX") ∧
     (∀ w ∈ gW.warehouses, w.id ≠ "wX") ∧
     (∀ w ∈ gW.warehouses, w.id ≠ "wX")) ∧
    (suppliesMerge gW.suppliers gW.products gW.supplies ⟨"sX", "p1", "wX"⟩ =
       gW.supplies ∧
     storedAtMerge gW.products gW.warehouses gW.storedAt ⟨"sX", "p1", "wX"⟩ =
       gW.storedAt ∧
     mergeRoute gW.warehouses gW.connectedTo ⟨"wX", "w1", 1, 1⟩ =
       gW.connectedTo) :=
  ⟨⟨by decide, by decide, by decide⟩,
    missing_endpoint_silent_skip gW ⟨"sX", "p1", "wX"⟩ ⟨"wX", "w1", 1, 1⟩
      (by decide) (by decide) (by decide)⟩

/-- C10: the SUPPLIES and STORED_AT merges of one relationship record are
independent — when only the supplier is absent the STORED_AT edge is still
merged while the SUPPLIES merge is a silent no-op, and symmetrically when
only the warehouse is absent, so one record yields zero, one, or two
edges. -/
theorem rel_merges_independent (g : Graph) (r r2 : RelRecord)
    (ha : ∀ s ∈ g.suppliers, s.id ≠ r.supplier_id)
    (hb : ∃ p ∈ g.products, p.id = r.product_id)
    (hc : ∃ w ∈ g.warehouses, w.id = r.warehouse_id)
    (hd : ∃ s ∈ g.suppliers, s.id = r2.supplier_id)
    (he : ∃ p ∈ g.products, p.id = r2.product_id)
    (hf : ∀ w ∈ g.warehouses, w.id ≠ r2.warehouse_id) :
    (relStep g r).supplies = g.supplies ∧
    (relStep g r).storedAt =
      insertEdge g.storedAt (r.product_id, r.warehouse_id) ∧
    (relStep g r2).supplies =
      insertEdge g.supplies (r2.supplier_id, r2.product_id) ∧
    (relStep g r2).storedAt = g.storedAt := by
  have ha' : g.suppliers.any (fun s => decide (s.id = r.supplier_id)) = false := by
    simp only [List.any_eq_false, decide_eq_true_eq]
    exact ha
  have hb' : g.products.any (fun p => decide (p.id = r.product_id)) = true := by
    obtain ⟨p, hp, hpe⟩ := hb
    exact List.any_eq_true.mpr ⟨p, hp, decide_eq_true hpe⟩
  have hc' : g.warehouses.any (fun w => decide (w.id = r.warehouse_id)) = true := by
    obtain ⟨w, hw, hwe⟩ := hc
    exact List.any_eq_true.mpr ⟨w, hw, decide_eq_true hwe⟩
  have hd' : g.suppliers.any (fun s => decide (s.id = r2.supplier_id)) = true := by
    obtain ⟨s, hsm, hse⟩ := hd
    exact List.any_eq_true.mpr ⟨s, hsm, decide_eq_true hse⟩
  have he' : g.products.any (fun p => decide (p.id = r2.product_id)) = true := by
    obtain ⟨p, hp, hpe⟩ := he
    exact List.any_eq_true.mpr ⟨p, hp, decide_eq_true hpe⟩
  have hf' : g.warehouses.any (fun w => decide (w.id = r2.warehouse_id)) = false := by
    simp only [List.any_eq_false, decide_eq_true_eq]
    exact hf
  refine ⟨?_, ?_, ?_, ?_⟩
  · show suppliesMerge g.suppliers g.products g.supplies r = g.supplies
    simp [suppliesMerge, ha']
  · show storedAtMerge g.products g.warehouses g.storedAt r =
      insertEdge g.storedAt (r.product_id, r.warehouse_id)
    simp [storedAtMerge, hb', hc']
  · show suppliesMerge g.suppliers g.products g.supplies r2 =
      insertEdge g.supplies (r2.supplier_id, r2.product_id)
    simp [suppliesMerge, hd', he']
  · show storedAtMerge g.products g.warehouses g.storedAt r2 = g.storedAt
    simp [storedAtMerge, hf']

/-- Witness for C10 at the store `gW`: the record `(sX, p1, w1)` creates
only the STORED_AT edge, the record `(s1, p1, wX)` creates only the
SUPPLIES edge. -/
theorem rel_merges_independent_witness :
    ((∀ s ∈ gW.suppliers, s.id ≠ "sX") ∧
     (∃ p ∈ gW.products, p.id = "p1") ∧
     (∃ w ∈ gW.warehouses, w.id = "w1") ∧
     (∃ s ∈ gW.suppliers, s.id = "s1") ∧
     (∃ p ∈ gW.products, p.id = "p1") ∧
     (∀ w ∈ gW.warehouses, w.id ≠ "wX")) ∧
    ((relStep gW ⟨"sX", "p1", "w1"⟩).supplies = gW.supplies ∧
     (relStep gW ⟨"sX", "p1", "w1"⟩).storedAt =
       insertEdge gW.storedAt ("p1", "w1") ∧
     (relStep gW ⟨"s1", "p1", "wX"⟩).supplies =
       insertEdge gW.supplies ("s1", "p1") ∧
     (relStep gW ⟨"s1", "p1", "wX"⟩).storedAt = gW.storedAt) :=
  ⟨⟨by decide, by decide, by decide, by decide, by decide, by decide⟩,
    rel_merges_independent gW ⟨"sX", "p1", "w1"⟩ ⟨"s1", "p1", "wX"⟩
      (by decide) (by decide) (by decide) (by decide) (by decide) (by decide)⟩

/-! ## Claim C7: the chat turn -/

/-- C7: each chat turn appends exactly the user turn followed by the
assistant turn, leaving every prior entry unchanged; the assistant content
wraps the generation outcome applied to the retrieval context, which is
computed before generation runs, and when generation raises the appended
assistant content is the generation error sentinel. -/
theorem chat_turn_appends_two (retrieve : String → String)
    (gen : String → String → Except String (Option String))
    (messages : List ChatMessage) (prompt : String) :
    chat_turn retrieve gen messages prompt =
      messages ++ [{ role := "user", content := prompt },
        { role := "assistant",
          content := generate_gemini_response (gen (retrieve prompt) prompt) }] ∧
    (chat_turn retrieve gen messages prompt).length = messages.length + 2 ∧
    (chat_turn retrieve gen messages prompt).take messages.length = messages ∧
    (∀ e, gen (retrieve prompt) prompt = Except.error e →
      chat_turn retrieve gen messages prompt =
        messages ++ [{ role := "user", content := prompt },
          { role := "assistant", content := "Error generating response." }]) := by
  have h1 : chat_turn retrieve gen messages prompt =
      messages ++ [{ role := "user", content := prompt },
        { role := "assistant",
          content := generate_gemini_response (gen (retrieve prompt) prompt) }] := by
    simp [chat_turn]
  refine ⟨h1, ?_, ?_, ?_⟩
  · rw [h1]
    simp
  · rw [h1, List.take_left]
  · intro e he
    rw [h1, he]
    rfl

/-- Witness for C7: a generation call that raises still appends both
turns, the assistant one carrying the error sentinel. -/
theorem chat_turn_appends_two_witness :
    chat_turn (fun _ => "ctx") (fun _ _ => Except.error "boom") [] "q" =
      [{ role := "user", content := "q" },
       { role := "assistant", content := "Error generating response." }] := by
  have h := (chat_turn_appends_two (fun _ => "ctx")
    (fun _ _ => Except.error "boom") [] "q").2.2.2 "boom" rfl
  simpa using h

/-! ## Claim C8: connection lifecycle -/

/-- C8 counterexample: `load_suppliers` is a store operation (it opens a
session), yet its trace contains no driver open or close of its own — the
operations of the ingestion script share the single module-lifetime driver
created at import, contradicting "opens and closes a connection per
call". -/
theorem ingestion_shared_driver_counterexample :
    load_suppliers_trace.count StoreEvent.sessionOpen = 1 ∧
    StoreEvent.driverOpen ∉ load_suppliers_trace ∧
    StoreEvent.driverClose ∉ load_suppliers_trace := by
  decide

theorem replicate_session_pairs_count (n : ℕ) :
    ((List.replicate n
        [StoreEvent.sessionOpen, StoreEvent.sessionClose]).flatten).count
        StoreEvent.sessionOpen = n ∧
    ((List.replicate n
        [StoreEvent.sessionOpen, StoreEvent.sessionClose]).flatten).count
        StoreEvent.sessionClose = n ∧
    ((List.replicate n
        [StoreEvent.sessionOpen, StoreEvent.sessionClose]).flatten).count
        StoreEvent.driverOpen = 0 ∧
    ((List.replicate n
        [StoreEvent.sessionOpen, StoreEvent.sessionClose]).flatten).count
        StoreEvent.driverClose = 0 := by
  induction n with
  | zero => simp
  | succ n ih =>
    obtain ⟨h1, h2, h3, h4⟩ := ih
    rw [List.replicate_succ, List.flatten_cons]
    simp [List.count_append, h1, h2, h3, h4, List.count_cons]

/-- C8 (amended): every store operation scopes its session with a `with`
block, so session opens and closes balance on every exit path; the chat
retrieval additionally opens and closes its own driver per call on every
exit path; the ingestion script balances its one module-lifetime driver
over the whole script run, not per operation. -/
theorem store_resource_balanced (driverOk sessionOk bodyOk : Bool) (n : ℕ) :
    balancedFor (retrievalTrace driverOk sessionOk bodyOk)
      StoreEvent.driverOpen StoreEvent.driverClose ∧
    balancedFor (retrievalTrace driverOk sessionOk bodyOk)
      StoreEvent.sessionOpen StoreEvent.sessionClose ∧
    balancedFor load_suppliers_trace
      StoreEvent.sessionOpen StoreEvent.sessionClose ∧
    balancedFor (load_products_trace n)
      StoreEvent.sessionOpen StoreEvent.sessionClose ∧
    balancedFor (load_script_trace n)
      StoreEvent.driverOpen StoreEvent.driverClose ∧
    balancedFor (load_script_trace n)
      StoreEvent.sessionOpen StoreEvent.sessionClose := by
  obtain ⟨h1, h2, h3, h4⟩ := replicate_session_pairs_count n
  refine ⟨?_, ?_, ?_, ?_, ?_, ?_⟩
  · cases driverOk <;> cases sessionOk <;> cases bodyOk <;> rfl
  · cases driverOk <;> cases sessionOk <;> cases bodyOk <;> rfl
  · rfl
  · simp [balancedFor, load_products_trace, List.count_append, h1, h2]
  · simp [balancedFor, load_script_trace, load_products_trace,
      load_suppliers_trace, List.count_append, h1, h2, h3, h4]
  · simp [balancedFor, load_script_trace, load_products_trace,
      load_suppliers_trace, List.count_append, h1, h2, h3, h4]

/-! ## Claim C9: environment configuration -/

/-- C9 counterexample: with an empty environment every required variable
is null, yet startup raises no configuration error — it silently invokes
the generation-API configure call with a null key, and the retrieval path
would hand a null endpoint and null credentials to the driver call. -/
theorem null_config_counterexample :
    loadAppConfig [] = ⟨none, none, none, none⟩ ∧
    appStartupEvents [] = [StartupEvent.genaiConfigure none] ∧
    driverAttempt (loadAppConfig []) = (none, (none, none)) := by
  decide

/-- C9 (amended): the main app never validates its configuration — with a
missing API key it still emits only the unconditional configure call (no
error event), and store failures in the chat path surface solely as the
retrieval error sentinel; only the connection smoke test reports a clear
missing-key error. -/
theorem missing_env_behavior (env : List (String × String))
    (call : Except String (Option String))
    (hkey : getenv env "GEMINI_API_KEY" = none) :
    appStartupEvents env = [StartupEvent.genaiConfigure none] ∧
    test_gemini_connection (getenv env "GEMINI_API_KEY") call =
      "❌ Gemini API connection error: GEMINI_API_KEY environment variable is not set" ∧
    (∀ (model : Option (String → List ℚ)) (question : String),
      get_relevant_context (Except.error ()) model question =
        "Error retrieving context.") := by
  refine ⟨?_, ?_, ?_⟩
  · simp [appStartupEvents, loadAppConfig, hkey]
  · rw [hkey]
    rfl
  · intro model question
    rfl

/-- Witness for the amended statement of C9 at the empty environment. -/
theorem missing_env_behavior_witness :
    getenv [] "GEMINI_API_KEY" = none ∧
    (appStartupEvents [] = [StartupEvent.genaiConfigure none] ∧
     test_gemini_connection (getenv [] "GEMINI_API_KEY")
       (Except.ok (some "hello")) =
       "❌ Gemini API connection error: GEMINI_API_KEY environment variable is not set" ∧
     (∀ (model : Option (String → List ℚ)) (question : String),
       get_relevant_context (Except.error ()) model question =
         "Error retrieving context.")) :=
  ⟨rfl, missing_env_behavior [] (Except.ok (some "hello")) rfl⟩

end SupplyChainRag
